import Mathlib

/-!
Verification of the chargeback operator (`pkg/chargeback/operator.go`):
a shallow embedding of its connection management, retry loops, worker
startup, informer wiring and error handling, with theorems checking the
natural-language specification against the embedded code.
-/

set_option autoImplicit false

namespace Chargeback

/-! ## Go error values

Errors relevant to `operator.go`, modelled as an inductive type.
`opError e` is a `*net.OpError` whose `Err` field holds `e`;
`syscallError e` is a `*os.SyscallError` wrapping `e`; `epipe` is the
bare `syscall.EPIPE` errno value; `eof` is `io.EOF`; `other s` is any
other error value (e.g. one built by `fmt.Errorf`). Go compares the
`Err` field with `==` on interface values, which is equality of the
dynamic value, so `DecidableEq` on this type models that comparison. -/
inductive GoError where
  | eof : GoError
  | epipe : GoError
  | opError (inner : GoError) : GoError
  | syscallError (inner : GoError) : GoError
  | other (msg : String) : GoError
  deriving DecidableEq, Repr

/-- `isErrBrokenPipe` from `operator.go`: a type assertion
`err.(*net.OpError)` followed by `netErr.Err == syscall.EPIPE`. -/
def isErrBrokenPipe : GoError → Bool
  | .opError inner => inner == .epipe
  | _ => false

/-- The retry condition used twice inside `hiveQueryer.Query`:
`err == io.EOF || isErrBrokenPipe(err)`. -/
def isRetriableHiveErr (e : GoError) : Bool :=
  e == .eof || isErrBrokenPipe e

/-! ## The Hive queryer (`hiveQueryer`)

Connections are identified by natural numbers. The mutable state of a
`hiveQueryer` that `Query` touches is its `hiveConn` field
(`nil` = `none`). The environment supplies, per attempt index, the
result of a `newHiveConn` call (made only when `hiveConn` is nil) and
the result of `hiveConn.Query(query)` on the connection in hand
(`none` = query succeeded). -/
structure HiveEnv where
  /-- Result of the `newHiveConn` call made during attempt `i`, if one
  is made: a fresh connection id or an error. -/
  newConn : Nat → Except GoError Nat
  /-- Result of `hiveConn.Query(query)` during attempt `i` when a
  connection is in hand: `none` on success, `some e` on error. -/
  queryErr : Nat → Option GoError

/-- Outcome of `hiveQueryer.Query`: the returned error (`none` means
the query succeeded), the final value of the `hiveConn` field, and how
many loop iterations (attempts) ran. -/
structure QueryOutcome where
  result : Option GoError
  finalConn : Option Nat
  attempts : Nat
  deriving DecidableEq, Repr

/-- `closeHiveConnection`: closes any current connection and sets
`hiveConn = nil`. Its effect on the modelled state is `hiveConn := none`. -/
def closeHiveConnection (_conn : Option Nat) : Option Nat := none

/-- `getHiveConnection` at attempt `i`: returns the stored connection
if non-nil, otherwise calls `newHiveConn` and stores its result.
Returns the (error, new state) pair. -/
def getHiveConnection (env : HiveEnv) (i : Nat) (conn : Option Nat) :
    Except GoError Nat × Option Nat :=
  match conn with
  | some c => (.ok c, some c)
  | none =>
    match env.newConn i with
    | .ok c => (.ok c, some c)
    | .error e => (.error e, none)

/-- The body of the `for retries := 0; retries < maxRetries; retries++`
loop in `hiveQueryer.Query`, recursing on the remaining retry budget.
`i` is the current attempt index (number of attempts already made). -/
def hiveQueryLoop (env : HiveEnv) : Nat → Nat → Option Nat → QueryOutcome
  | 0, i, conn =>
    -- loop exhausted: close any connection and return a fresh error
    { result := some (.other "unable to create new hive connection after existing hive connection closed")
      finalConn := closeHiveConnection conn
      attempts := i }
  | fuel + 1, i, conn =>
    match getHiveConnection env i conn with
    | (.error e, conn') =>
      if isRetriableHiveErr e then
        hiveQueryLoop env fuel (i + 1) (closeHiveConnection conn')
      else
        -- "We don't close the connection here because we got an error
        -- while getting it"
        { result := some e, finalConn := conn', attempts := i + 1 }
    | (.ok c, _) =>
      match env.queryErr i with
      | some e =>
        if isRetriableHiveErr e then
          hiveQueryLoop env fuel (i + 1) (closeHiveConnection (some c))
        else
          -- "We don't close the connection here ... the query itself
          -- had an error."
          { result := some e, finalConn := some c, attempts := i + 1 }
      | none => { result := none, finalConn := some c, attempts := i + 1 }

/-- `maxRetries` constant of `hiveQueryer.Query`. -/
def maxRetries : Nat := 3

/-- `hiveQueryer.Query`, starting from the stored `hiveConn` state. -/
def hiveQuery (env : HiveEnv) (conn : Option Nat) : QueryOutcome :=
  hiveQueryLoop env maxRetries 0 conn

/-! ## Connection-acquisition loops (`newPrestoConn`, `hiveQueryer.newHiveConn`)

Time is in whole seconds. `connBackoff` and `maxConnWaitTime` are the
constants of `operator.go`. The environment supplies each attempt's
result (`sql.Open` / `hive.Connect`) and its wall-clock duration; the
`stopReady` function says whether a receive from the stop channel would
complete during the `i`-th backoff select. -/

/-- `connBackoff = time.Second * 15`, in seconds. -/
def connBackoff : Nat := 15

/-- `maxConnWaitTime = time.Minute * 3`, in seconds. -/
def maxConnWaitTime : Nat := 180

/-- Environment for a connection-acquisition loop. -/
structure ConnEnv where
  /-- Result of the `i`-th connection attempt. -/
  attempt : Nat → Except GoError Nat
  /-- Wall-clock seconds the `i`-th connection attempt takes. -/
  dur : Nat → Nat

/-- The shared shape of the retry loops in `Chargeback.newPrestoConn`
and `hiveQueryer.newHiveConn`: attempt; on success return; on failure,
if the elapsed time since the loop started exceeds `maxConnWaitTime`,
return the timeout error built by `timeoutErr`; otherwise
`select { tick(connBackoff); stop }` — if the stop case fires return
`shutdownErr`, else retry. `elapsed` is the value `clock.Since(startTime)`
reads right after the `i`-th attempt completes. -/
def connAcquireLoop (timeoutErr : GoError → GoError) (shutdownErr : GoError)
    (env : ConnEnv) (stopReady : Nat → Bool) (i elapsed : Nat) :
    Except GoError Nat :=
  match env.attempt i with
  | .ok conn => .ok conn
  | .error e =>
    if elapsed > maxConnWaitTime then
      .error (timeoutErr e)
    else if stopReady i then
      .error shutdownErr
    else
      connAcquireLoop timeoutErr shutdownErr env stopReady (i + 1)
        (elapsed + connBackoff + env.dur (i + 1))
termination_by maxConnWaitTime + 1 - elapsed
decreasing_by simp only [maxConnWaitTime, connBackoff] at *; omega

/-- `Chargeback.newPrestoConn`: the Presto loop. Its stop channel is
the `stopCh` passed to `Run`, observed directly in the select; its
timeout error wraps the attempt error in
`"failed to connect to presto: %v"`. -/
def newPrestoConn (env : ConnEnv) (stopReady : Nat → Bool) : Except GoError Nat :=
  connAcquireLoop (fun _ => .other "failed to connect to presto")
    (.other "got shutdown signal, closing Presto connection")
    env stopReady 0 (env.dur 0)

/-- A Go channel of stop signals: `none` is a nil channel; `some f`
is a channel where `f i` says whether a receive completes during the
`i`-th backoff select. -/
def StopChan : Type := Option (Nat → Bool)

/-- A `select` case receiving from a possibly-nil channel: a receive
on a nil channel blocks forever, so its case is never ready. -/
def selectStopReady (ch : StopChan) (i : Nat) : Bool :=
  match ch with
  | none => false
  | some f => f i

/-- The `hiveQueryer` struct fields relevant to the embedding
(`logger`, `clock` and the mutex carry no modelled state). -/
structure HiveQueryer where
  hiveHost : String
  logQueries : Bool
  hiveConn : Option Nat
  stopCh : StopChan

/-- `newHiveQueryer` from `operator.go`: the composite literal sets
`clock`, `hiveHost`, `logger` and `logQueries`; every omitted field —
including `stopCh` and `hiveConn` — gets its Go zero value (nil). -/
def newHiveQueryer (hiveHost : String) (logQueries : Bool)
    (_stopCh : Nat → Bool) : HiveQueryer :=
  { hiveHost := hiveHost
    logQueries := logQueries
    hiveConn := none
    stopCh := none }

/-- `hiveQueryer.newHiveConn`: the Hive loop. On timeout it returns the
attempt's error unchanged; its select observes `q.stopCh`. -/
def newHiveConn (q : HiveQueryer) (env : ConnEnv) : Except GoError Nat :=
  connAcquireLoop (fun e => e)
    (.other "got shutdown signal, closing hive connection")
    env (selectStopReady q.stopCh) 0 (env.dur 0)

/-! ## Worker startup and shutdown (`startWorkers`, `Run`) -/

/-- The worker fibers `Chargeback.startWorkers` can start, by the
function each `go` statement runs. -/
inductive WorkerFiber where
  | prestoTableWorker : WorkerFiber
  | reportDataSourceWorker (i : Nat) : WorkerFiber
  | reportGenerationQueryWorker (i : Nat) : WorkerFiber
  | reportWorker (i : Nat) : WorkerFiber
  | scheduledReportWorker (i : Nat) : WorkerFiber
  | scheduledReportRunner : WorkerFiber
  | promsumCollector : WorkerFiber
  deriving DecidableEq, Repr

/-- `sync.WaitGroup`: the modelled state is its counter. A
`sync.WaitGroup` is a plain Go struct, so passing it to a function by
value copies the counter. -/
structure WaitGroup where
  counter : Nat
  deriving DecidableEq, Repr

/-- `wg.Add(n)`. -/
def WaitGroup.add (wg : WaitGroup) (n : Nat) : WaitGroup := ⟨wg.counter + n⟩

/-- `Chargeback.startWorkers(wg sync.WaitGroup, stopCh)`: receives its
WaitGroup by value. Returns the callee's copy of the WaitGroup after
all its `wg.Add(1)` calls, and the fibers started, in program order:
one PrestoTable worker; then for `i := 0; i < threadiness; i++` with
`threadiness = 2` a ReportDataSource, ReportGenerationQuery, Report and
ScheduledReport worker each; then the scheduled-report runner; then,
unless `cfg.DisablePromsum`, the Promsum collector. -/
def startWorkers (wg : WaitGroup) (disablePromsum : Bool) :
    WaitGroup × List WorkerFiber :=
  let threadiness := 2
  let acc0 := (wg.add 1, [WorkerFiber.prestoTableWorker])
  let acc1 := (List.range threadiness).foldl
    (fun acc i =>
      ((((acc.1.add 1).add 1).add 1).add 1,
        acc.2 ++ [WorkerFiber.reportDataSourceWorker i,
                  WorkerFiber.reportGenerationQueryWorker i,
                  WorkerFiber.reportWorker i,
                  WorkerFiber.scheduledReportWorker i]))
    acc0
  let acc2 := (acc1.1.add 1, acc1.2 ++ [WorkerFiber.scheduledReportRunner])
  if disablePromsum then acc2
  else (acc2.1.add 1, acc2.2 ++ [WorkerFiber.promsumCollector])

/-- The WaitGroup counter that `wg.Wait()` in `Chargeback.Run` reads at
shutdown. `Run` declares `var wg sync.WaitGroup` and calls
`c.startWorkers(wg, stopCh)`: Go passes the struct by value, so
`startWorkers` mutates a copy and the caller's `wg` is unchanged. -/
def runObservedWaitCounter (disablePromsum : Bool) : Nat :=
  let wg : WaitGroup := ⟨0⟩
  let _calleeCopy := startWorkers wg disablePromsum
  wg.counter

/-! ## Informer event handlers (`setupInformers`) -/

/-- The seven resource kinds whose informers and work queues
`setupInformers` builds. -/
inductive ResourceKind where
  | report : ResourceKind
  | scheduledReport : ResourceKind
  | reportDataSource : ResourceKind
  | reportGenerationQuery : ResourceKind
  | reportPrometheusQuery : ResourceKind
  | storageLocation : ResourceKind
  | prestoTable : ResourceKind
  deriving DecidableEq, Repr

/-- A watched object: its namespace, name, and whether
`cache.MetaNamespaceKeyFunc` can extract metadata from it. -/
structure K8sObject where
  ns : String
  name : String
  validMeta : Bool
  deriving DecidableEq, Repr

/-- `cache.MetaNamespaceKeyFunc`: `namespace + "/" + name`, or an error
when the object carries no usable metadata. -/
def metaNamespaceKeyFunc (o : K8sObject) : Option String :=
  if o.validMeta then some (o.ns ++ "/" ++ o.name) else none

/-- What an informer event handler does when invoked. -/
inductive HandlerAction where
  | enqueue (kind : ResourceKind) (key : String) : HandlerAction
  | scheduledReportDeleted (o : K8sObject) : HandlerAction
  deriving DecidableEq, Repr

/-- The add/update handler body used for the report, scheduledReport,
reportDataSource and reportGenerationQuery queues: compute the key and
`queue.Add(key)` only when the key function returned no error. -/
def enqueueKeyHandler (kind : ResourceKind) (o : K8sObject) : List HandlerAction :=
  match metaNamespaceKeyFunc o with
  | some key => [HandlerAction.enqueue kind key]
  | none => []

/-- The `cache.ResourceEventHandlerFuncs` an informer registers; a
field is `none` when that func is omitted from the literal. -/
structure ResourceEventHandlerFuncs where
  addFunc : Option (K8sObject → List HandlerAction)
  updateFunc : Option (K8sObject → K8sObject → List HandlerAction)
  deleteFunc : Option (K8sObject → List HandlerAction)

/-- The handlers `setupInformers` registers, per informer. The report,
reportDataSource and reportGenerationQuery informers register add and
update funcs only; the scheduledReport informer additionally registers
`c.handleScheduledReportDeleted` as delete func; the
reportPrometheusQuery, storageLocation and prestoTable informers never
call `AddEventHandler` at all. -/
def setupInformerHandlers : ResourceKind → Option ResourceEventHandlerFuncs
  | .report => some
    { addFunc := some (enqueueKeyHandler .report)
      updateFunc := some (fun _old cur => enqueueKeyHandler .report cur)
      deleteFunc := none }
  | .scheduledReport => some
    { addFunc := some (enqueueKeyHandler .scheduledReport)
      updateFunc := some (fun _old cur => enqueueKeyHandler .scheduledReport cur)
      deleteFunc := some (fun o => [HandlerAction.scheduledReportDeleted o]) }
  | .reportDataSource => some
    { addFunc := some (enqueueKeyHandler .reportDataSource)
      updateFunc := some (fun _old cur => enqueueKeyHandler .reportDataSource cur)
      deleteFunc := none }
  | .reportGenerationQuery => some
    { addFunc := some (enqueueKeyHandler .reportGenerationQuery)
      updateFunc := some (fun _old cur => enqueueKeyHandler .reportGenerationQuery cur)
      deleteFunc := none }
  | .reportPrometheusQuery => none
  | .storageLocation => none
  | .prestoTable => none

/-- A watch event delivered to an informer. -/
inductive WatchEvent where
  | add (o : K8sObject) : WatchEvent
  | update (old cur : K8sObject) : WatchEvent
  | delete (o : K8sObject) : WatchEvent
  deriving DecidableEq, Repr

/-- Dispatch of a watch event by a kind's informer: run the matching
registered handler func, if any. -/
def dispatchEvent (kind : ResourceKind) (ev : WatchEvent) : List HandlerAction :=
  match setupInformerHandlers kind with
  | none => []
  | some h =>
    match ev with
    | .add o => (h.addFunc.map (fun f => f o)).getD []
    | .update old cur => (h.updateFunc.map (fun f => f old cur)).getD []
    | .delete o => (h.deleteFunc.map (fun f => f o)).getD []

/-! ## `handleErr` and the work-queue retry policy -/

/-- The work-queue mutations `Chargeback.handleErr` can perform. -/
inductive QueueOp where
  | forget (key : String) : QueueOp
  | addRateLimited (key : String) : QueueOp
  deriving DecidableEq, Repr

/-- `Chargeback.handleErr`: on nil error, `queue.Forget(key)`; on error,
`queue.AddRateLimited(key)` while `queue.NumRequeues(key) < 5`,
otherwise `queue.Forget(key)` and drop. `numRequeues` is the queue's
`NumRequeues(key)` at the call. -/
def handleErr (errIsNil : Bool) (key : String) (numRequeues : Nat) : List QueueOp :=
  if errIsNil then
    [QueueOp.forget key]
  else if numRequeues < 5 then
    [QueueOp.addRateLimited key]
  else
    [QueueOp.forget key]

/-! ## The `initialized` flag -/

/-- The operations of `Chargeback` as they act on the mutex-protected
`initialized` field: `setInitialized` and `isInitialized` are the only
methods in `operator.go` that touch it; `otherOp` stands for every
other method, none of which reads or writes the field. -/
inductive CbOp where
  | setInitialized : CbOp
  | isInitialized : CbOp
  | otherOp : CbOp
  deriving DecidableEq, Repr

/-- Effect of one operation on the `initialized` field:
`setInitialized` stores `true`; nothing else writes the field. -/
def applyCbOp (b : Bool) : CbOp → Bool
  | .setInitialized => true
  | .isInitialized => b
  | .otherOp => b

/-- The value of the `initialized` field after a sequence of operations
run from a freshly constructed `Chargeback`, whose field starts at the
Go zero value `false`. `isInitialized` returns exactly this value. -/
def initializedAfter (ops : List CbOp) : Bool :=
  ops.foldl applyCbOp false

/-! ## Auxiliary predicates used in claim statements -/

/-- Attempt `i` of `hiveQueryer.Query` fails with a retriable
(`io.EOF` / broken-pipe) error: when a connection is in hand the
query errs retriably; otherwise either `newHiveConn` errs retriably,
or it succeeds and the query errs retriably. -/
def attemptRetriableFail (env : HiveEnv) (connInHand : Bool) (i : Nat) : Bool :=
  if connInHand then
    match env.queryErr i with
    | some e => isRetriableHiveErr e
    | none => false
  else
    match env.newConn i with
    | .error e => isRetriableHiveErr e
    | .ok _ =>
      match env.queryErr i with
      | some e => isRetriableHiveErr e
      | none => false

/-- Whether a connection is in hand at the start of attempt `i` of a
`Query` call whose initial state was `conn`, given every earlier
attempt failed retriably (which closes the connection). -/
def connInHandAt (conn : Option Nat) (i : Nat) : Bool :=
  i == 0 && conn.isSome

/-! ## Helper lemmas -/

theorem hiveQueryLoop_attempts_le (env : HiveEnv) :
    ∀ (fuel i : Nat) (conn : Option Nat),
      (hiveQueryLoop env fuel i conn).attempts ≤ i + fuel := by
  intro fuel
  induction fuel with
  | zero => intro i conn; simp [hiveQueryLoop]
  | succ n ih =>
    intro i conn
    rw [hiveQueryLoop]
    rcases hg : getHiveConnection env i conn with ⟨res, conn'⟩
    cases res with
    | error e =>
      by_cases hr : isRetriableHiveErr e
      · simpa [hr] using Nat.le_trans (ih (i + 1) (closeHiveConnection conn')) (by omega)
      · simp [hr]
    | ok c =>
      cases hq : env.queryErr i with
      | some e =>
        by_cases hr : isRetriableHiveErr e
        · simpa [hq, hr] using Nat.le_trans (ih (i + 1) (closeHiveConnection (some c))) (by omega)
        · simp [hq, hr]
      | none => simp [hq]

theorem hiveQueryLoop_step_retriable (env : HiveEnv) (fuel i : Nat) (conn : Option Nat)
    (h : attemptRetriableFail env conn.isSome i = true) :
    hiveQueryLoop env (fuel + 1) i conn = hiveQueryLoop env fuel (i + 1) none := by
  cases conn with
  | some c =>
    cases hq : env.queryErr i with
    | none => simp [attemptRetriableFail, hq] at h
    | some e =>
      simp only [attemptRetriableFail, hq, Option.isSome_some, if_pos] at h
      simp [hiveQueryLoop, getHiveConnection, hq, h, closeHiveConnection]
  | none =>
    cases hn : env.newConn i with
    | error e =>
      simp only [attemptRetriableFail, hn, Option.isSome_none, Bool.false_eq_true,
        if_neg, ite_false] at h
      simp [hiveQueryLoop, getHiveConnection, hn, h, closeHiveConnection]
    | ok c =>
      cases hq : env.queryErr i with
      | none => simp [attemptRetriableFail, hn, hq] at h
      | some e =>
        simp only [attemptRetriableFail, hn, hq, Option.isSome_none, Bool.false_eq_true,
          if_neg, ite_false] at h
        simp [hiveQueryLoop, getHiveConnection, hn, hq, h, closeHiveConnection]

/-! ## Claim theorems -/

/-- C1: For every SQL string, `hiveQueryer.Query` attempts the query at
most 3 (`maxRetries`) times; on each attempt whose error is `io.EOF` or
a broken-pipe signal it closes the current Hive connection (retrying
with a fresh one, since the next attempt starts with `hiveConn = nil`);
and if all 3 attempts fail that way it closes the connection
(`finalConn = none`) and returns a non-nil error. -/
theorem c1_hive_query_retry (env : HiveEnv) (conn : Option Nat) :
    (hiveQuery env conn).attempts ≤ maxRetries ∧
    (∀ (fuel i : Nat) (conn2 : Option Nat),
        attemptRetriableFail env conn2.isSome i = true →
        hiveQueryLoop env (fuel + 1) i conn2 = hiveQueryLoop env fuel (i + 1) none) ∧
    ((∀ j : Fin maxRetries, attemptRetriableFail env (connInHandAt conn j.val) j.val = true) →
      hiveQuery env conn =
        { result := some (.other "unable to create new hive connection after existing hive connection closed")
          finalConn := none
          attempts := maxRetries }) := by
  refine ⟨?_, fun fuel i conn2 h => hiveQueryLoop_step_retriable env fuel i conn2 h, ?_⟩
  · simpa [hiveQuery] using hiveQueryLoop_attempts_le env maxRetries 0 conn
  · intro h
    have h0 := h ⟨0, by simp [maxRetries]⟩
    have h1 := h ⟨1, by simp [maxRetries]⟩
    have h2 := h ⟨2, by simp [maxRetries]⟩
    simp only [connInHandAt] at h0 h1 h2
    have s0 : hiveQueryLoop env 3 0 conn = hiveQueryLoop env 2 1 none := by
      apply hiveQueryLoop_step_retriable
      simpa using h0
    have s1 : hiveQueryLoop env 2 1 none = hiveQueryLoop env 1 2 none := by
      apply hiveQueryLoop_step_retriable
      simpa using h1
    have s2 : hiveQueryLoop env 1 2 none = hiveQueryLoop env 0 3 none := by
      apply hiveQueryLoop_step_retriable
      simpa using h2
    simp only [hiveQuery, maxRetries, s0, s1, s2]
    simp [hiveQueryLoop, closeHiveConnection]

/-- Environment in which every connection attempt fails with `io.EOF`
and every query fails with a broken pipe. -/
def envRetriableAll : HiveEnv :=
  { newConn := fun _ => .error .eof
    queryErr := fun _ => some (.opError .epipe) }

/-- Witness for C1: in the all-retriable environment, a retriable
attempt steps to a fresh-connection state, and the full `Query` makes
exactly 3 attempts and returns the final error with `hiveConn = nil`. -/
theorem c1_hive_query_retry_witness :
    hiveQueryLoop envRetriableAll 1 0 none = hiveQueryLoop envRetriableAll 0 1 none ∧
    hiveQuery envRetriableAll none =
      { result := some (.other "unable to create new hive connection after existing hive connection closed")
        finalConn := none
        attempts := maxRetries } :=
  ⟨(c1_hive_query_retry envRetriableAll none).2.1 0 0 none (by decide),
   (c1_hive_query_retry envRetriableAll none).2.2 (by decide)⟩

/-- C8: when the underlying connection's `Query` returns an error that
is neither `io.EOF` nor a broken-pipe signal, `hiveQueryer.Query`
returns that error unchanged and leaves the stored connection
untouched: `hiveConn` stays `some c`, neither closed nor set to nil. -/
theorem c8_nonretriable_error (env : HiveEnv) (c : Nat) (e : GoError)
    (hq : env.queryErr 0 = some e) (hr : isRetriableHiveErr e = false) :
    hiveQuery env (some c) =
      { result := some e, finalConn := some c, attempts := 1 } := by
  simp [hiveQuery, maxRetries, hiveQueryLoop, getHiveConnection, hq, hr]

/-- Environment whose query always fails with a plain (non-retriable)
error. -/
def envBadQuery : HiveEnv :=
  { newConn := fun _ => .ok 7
    queryErr := fun _ => some (.other "syntax error") }

/-- Witness for C8 at a concrete environment and connection. -/
theorem c8_nonretriable_error_witness :
    hiveQuery envBadQuery (some 7) =
      { result := some (.other "syntax error"), finalConn := some 7, attempts := 1 } :=
  c8_nonretriable_error envBadQuery 7 (.other "syntax error") rfl rfl

theorem connAcquireLoop_error_of_fail (timeoutErr : GoError → GoError)
    (shutdownErr : GoError) (env : ConnEnv) (stopReady : Nat → Bool)
    (hfail : ∀ i, ∃ e, env.attempt i = .error e) :
    ∀ (fuel i elapsed : Nat), maxConnWaitTime + 1 - elapsed ≤ fuel →
      ∃ e2, connAcquireLoop timeoutErr shutdownErr env stopReady i elapsed = .error e2 := by
  intro fuel
  induction fuel with
  | zero =>
    intro i elapsed hle
    obtain ⟨e, he⟩ := hfail i
    have h1 : elapsed > maxConnWaitTime := by omega
    rw [connAcquireLoop, he]
    simp [h1]
  | succ n ih =>
    intro i elapsed hle
    obtain ⟨e, he⟩ := hfail i
    rw [connAcquireLoop, he]
    by_cases h1 : elapsed > maxConnWaitTime
    · simp [h1]
    · by_cases h2 : stopReady i
      · simp [h1, h2]
      · simp only [h1, h2, if_false, ite_false, if_neg]
        exact ih (i + 1) (elapsed + connBackoff + env.dur (i + 1))
          (by simp only [connBackoff] at *; omega)

/-- C7: both acquisition loops (`newPrestoConn` and `newHiveConn`)
terminate under persistently failing attempts with a non-nil error, and
in either loop (any instance of `connAcquireLoop`), once the elapsed
time since the loop started exceeds `maxConnWaitTime` (3 minutes), the
next failed attempt makes the loop stop and return the timeout error;
each retry backs off by the fixed `connBackoff` (15 seconds). -/
theorem c7_conn_loops_bounded (env : ConnEnv) (stopReady : Nat → Bool) (q : HiveQueryer)
    (hfail : ∀ i, ∃ e, env.attempt i = .error e) :
    (∃ e, newPrestoConn env stopReady = .error e) ∧
    (∃ e, newHiveConn q env = .error e) ∧
    (∀ (timeoutErr : GoError → GoError) (shutdownErr : GoError) (sr : Nat → Bool)
        (i elapsed : Nat) (e : GoError),
      env.attempt i = .error e → elapsed > maxConnWaitTime →
      connAcquireLoop timeoutErr shutdownErr env sr i elapsed = .error (timeoutErr e)) := by
  refine ⟨?_, ?_, ?_⟩
  · rw [newPrestoConn]
    exact connAcquireLoop_error_of_fail _ _ env stopReady hfail
      (maxConnWaitTime + 1) 0 (env.dur 0) (Nat.sub_le _ _)
  · rw [newHiveConn]
    exact connAcquireLoop_error_of_fail _ _ env (selectStopReady q.stopCh) hfail
      (maxConnWaitTime + 1) 0 (env.dur 0) (Nat.sub_le _ _)
  · intro timeoutErr shutdownErr sr i elapsed e he h1
    rw [connAcquireLoop, he]
    simp [h1]

/-- An environment whose connection attempts always fail immediately. -/
def envConnFail : ConnEnv :=
  { attempt := fun _ => .error (.other "connection refused")
    dur := fun _ => 0 }

/-- Witness for C7: with always-failing attempts and a stop channel
that never fires, both loops return errors, and a failed attempt past
the ceiling returns the timeout error. -/
theorem c7_conn_loops_bounded_witness :
    (∃ e, newPrestoConn envConnFail (fun _ => false) = .error e) ∧
    (∃ e, newHiveConn (newHiveQueryer "hive:10000" false (fun _ => false)) envConnFail = .error e) ∧
    connAcquireLoop (fun e => e) (.other "got shutdown signal, closing hive connection")
      envConnFail (fun _ => false) 0 200 = .error (.other "connection refused") := by
  obtain ⟨h1, h2, h3⟩ := c7_conn_loops_bounded envConnFail (fun _ => false)
    (newHiveQueryer "hive:10000" false (fun _ => false))
    (fun _ => ⟨.other "connection refused", rfl⟩)
  exact ⟨h1, h2, h3 (fun e => e) (.other "got shutdown signal, closing hive connection")
    (fun _ => false) 0 200 (.other "connection refused") rfl (by simp [maxConnWaitTime])⟩

/-- An environment whose attempts fail immediately, where the first
attempt is instantaneous and the second takes 200 seconds. -/
def envHiveSlow : ConnEnv :=
  { attempt := fun _ => .error (.other "connection refused")
    dur := fun i => if i = 0 then 0 else 200 }

/-- C3 (code bug): `newHiveQueryer` drops its `stopCh` argument — the
composite literal never assigns the `stopCh` field, so it stays nil.
Hence in `newHiveConn` the select's stop case is never ready: even with
the passed stop channel ready during every backoff, the loop keeps
retrying and returns the connection error via the timeout path, whereas
the same loop reading a ready stop channel would return the
distinguished shutdown error at the first backoff. -/
theorem c3_stop_channel_dropped :
    (newHiveQueryer "hive:10000" false (fun _ => true)).stopCh = none ∧
    newHiveConn (newHiveQueryer "hive:10000" false (fun _ => true)) envHiveSlow =
      .error (.other "connection refused") ∧
    connAcquireLoop (fun e => e) (.other "got shutdown signal, closing hive connection")
        envHiveSlow (fun _ => true) 0 (envHiveSlow.dur 0) =
      .error (.other "got shutdown signal, closing hive connection") := by
  refine ⟨rfl, ?_, ?_⟩
  · rw [newHiveConn, connAcquireLoop]
    norm_num [envHiveSlow, selectStopReady, newHiveQueryer, maxConnWaitTime, connBackoff]
    rw [connAcquireLoop]
    norm_num [envHiveSlow, maxConnWaitTime]
  · rw [connAcquireLoop]
    norm_num [envHiveSlow, maxConnWaitTime]

/-- C10: `isErrBrokenPipe(err)` is true exactly when `err` is a
`*net.OpError` whose `Err` field is the bare `syscall.EPIPE` value;
an EPIPE wrapped in `*os.SyscallError` inside the `OpError`, or
`io.EOF`, yields false. -/
theorem c10_isErrBrokenPipe_shape :
    (∀ e : GoError, isErrBrokenPipe e = true ↔ e = .opError .epipe) ∧
    isErrBrokenPipe (.opError (.syscallError .epipe)) = false ∧
    isErrBrokenPipe (.syscallError .epipe) = false ∧
    isErrBrokenPipe .eof = false := by
  refine ⟨?_, rfl, rfl, rfl⟩
  intro e
  cases e with
  | opError inner => cases inner <;> simp [isErrBrokenPipe]
  | _ => simp [isErrBrokenPipe]

/-- C2 (code bug): `Run` declares `var wg sync.WaitGroup` and calls
`c.startWorkers(wg, stopCh)`, passing the WaitGroup by value. With
Promsum enabled, `startWorkers` starts 11 fibers and performs 11
`wg.Add(1)` calls — but on its own copy, whose final counter is 11,
while the counter the `wg.Wait()` in `Run` observes is still 0: the
wait returns immediately without observing any `Add`/`Done` from
`startWorkers`. -/
theorem c2_waitgroup_passed_by_value :
    runObservedWaitCounter false = 0 ∧
    runObservedWaitCounter true = 0 ∧
    (startWorkers ⟨0⟩ false).1.counter = 11 ∧
    (startWorkers ⟨0⟩ false).2.length = 11 ∧
    (startWorkers ⟨0⟩ true).1.counter = 10 ∧
    (startWorkers ⟨0⟩ true).2.length = 10 := by
  decide

/-- C4: `handleErr` with a non-nil error performs exactly one queue
mutation: `AddRateLimited(key)` when `NumRequeues(key) < 5`, and
`Forget(key)` (dropping the key without requeuing) otherwise. -/
theorem c4_handleErr_retry_policy (key : String) (numRequeues : Nat) :
    handleErr false key numRequeues =
      if numRequeues < 5 then [QueueOp.addRateLimited key]
      else [QueueOp.forget key] := by
  simp [handleErr]

/-- C5 counterexample: `startWorkers` does not start 15 worker fibers;
it starts 11 fibers in total when Promsum is enabled (10 when
disabled), already counting the scheduled-report runner and the
Promsum collector. -/
theorem c5_not_fifteen_workers :
    (startWorkers ⟨0⟩ false).2.length = 11 ∧
    (startWorkers ⟨0⟩ true).2.length = 10 ∧
    ¬ (startWorkers ⟨0⟩ false).2.length = 15 ∧
    ¬ (startWorkers ⟨0⟩ true).2.length = 15 := by
  decide

/-- C5 (amended): `startWorkers` starts 2 worker fibers for each of the
4 kinds Report, ScheduledReport, ReportDataSource and
ReportGenerationQuery, plus exactly 1 PrestoTable worker, plus the
scheduled-report runner and (unless `DisablePromsum`) the Promsum
collector — 11 fibers with Promsum, 10 without; no fibers serve the
ReportPrometheusQuery, StorageLocation or PrestoTable work queues. -/
theorem c5_worker_census :
    ∀ d : Bool,
      ((startWorkers ⟨0⟩ d).2.countP
        (fun f => match f with | WorkerFiber.reportWorker _ => true | _ => false) = 2) ∧
      ((startWorkers ⟨0⟩ d).2.countP
        (fun f => match f with | WorkerFiber.scheduledReportWorker _ => true | _ => false) = 2) ∧
      ((startWorkers ⟨0⟩ d).2.countP
        (fun f => match f with | WorkerFiber.reportDataSourceWorker _ => true | _ => false) = 2) ∧
      ((startWorkers ⟨0⟩ d).2.countP
        (fun f => match f with | WorkerFiber.reportGenerationQueryWorker _ => true | _ => false) = 2) ∧
      ((startWorkers ⟨0⟩ d).2.count WorkerFiber.prestoTableWorker = 1) ∧
      ((startWorkers ⟨0⟩ d).2.count WorkerFiber.scheduledReportRunner = 1) ∧
      ((startWorkers ⟨0⟩ d).2.count WorkerFiber.promsumCollector = if d then 0 else 1) ∧
      ((startWorkers ⟨0⟩ d).2.length = if d then 10 else 11) := by
  decide

/-- A concrete watched object with valid metadata. -/
def objA : K8sObject := { ns := "team-a", name := "report-1", validMeta := true }

/-- C6 counterexample: not every watch event enqueues a key. The
reportPrometheusQuery, storageLocation and prestoTable informers
register no handlers, so their add events enqueue nothing; the report
informer registers no delete func, so a report delete enqueues
nothing. -/
theorem c6_not_all_events_enqueue :
    dispatchEvent ResourceKind.reportPrometheusQuery (WatchEvent.add objA) = [] ∧
    dispatchEvent ResourceKind.storageLocation (WatchEvent.add objA) = [] ∧
    dispatchEvent ResourceKind.prestoTable (WatchEvent.add objA) = [] ∧
    dispatchEvent ResourceKind.report (WatchEvent.delete objA) = [] := by
  decide

/-- C6 (amended): add and update events on the report, scheduledReport,
reportDataSource and reportGenerationQuery informers enqueue
`namespace + "/" + name` on that kind's queue (when the key function
succeeds); a scheduledReport delete invokes
`handleScheduledReportDeleted` instead of enqueuing; no delete event on
any informer enqueues a key; events on the other three informers
invoke no handler at all. -/
theorem c6_enqueue_census :
    ∀ (o old : K8sObject), o.validMeta = true →
    (∀ k, k ∈ [ResourceKind.report, ResourceKind.scheduledReport,
               ResourceKind.reportDataSource, ResourceKind.reportGenerationQuery] →
      dispatchEvent k (WatchEvent.add o) = [HandlerAction.enqueue k (o.ns ++ "/" ++ o.name)] ∧
      dispatchEvent k (WatchEvent.update old o) = [HandlerAction.enqueue k (o.ns ++ "/" ++ o.name)]) ∧
    (∀ k ev, k ∈ [ResourceKind.reportPrometheusQuery, ResourceKind.storageLocation,
                  ResourceKind.prestoTable] →
      dispatchEvent k ev = []) ∧
    dispatchEvent ResourceKind.scheduledReport (WatchEvent.delete o) =
      [HandlerAction.scheduledReportDeleted o] ∧
    (∀ k, ∀ a ∈ dispatchEvent k (WatchEvent.delete o),
      ∀ kind key, a ≠ HandlerAction.enqueue kind key) := by
  intro o old hv
  refine ⟨?_, ?_, ?_, ?_⟩
  · intro k hk
    simp only [List.mem_cons, List.not_mem_nil, or_false] at hk
    rcases hk with rfl | rfl | rfl | rfl <;>
      constructor <;>
      simp [dispatchEvent, setupInformerHandlers, enqueueKeyHandler, metaNamespaceKeyFunc, hv]
  · intro k ev hk
    simp only [List.mem_cons, List.not_mem_nil, or_false] at hk
    rcases hk with rfl | rfl | rfl <;> cases ev <;>
      simp [dispatchEvent, setupInformerHandlers]
  · simp [dispatchEvent, setupInformerHandlers]
  · intro k a ha kind key
    cases k <;> simp_all [dispatchEvent, setupInformerHandlers]

/-- Witness for C6 (amended) at a concrete object. -/
theorem c6_enqueue_census_witness :
    dispatchEvent ResourceKind.report (WatchEvent.add objA) =
      [HandlerAction.enqueue ResourceKind.report (objA.ns ++ "/" ++ objA.name)] :=
  ((c6_enqueue_census objA objA rfl).1 ResourceKind.report (by decide)).1

/-- C9: the `initialized` flag is monotone. A fresh `Chargeback` starts
with `initialized = false`; `setInitialized` is the only operation that
writes the field; and once the flag is true after some operations,
it stays true after any further operations — so once `isInitialized`
has returned true, every later call returns true. -/
theorem c9_initialized_monotone :
    initializedAfter [] = false ∧
    (∀ (b : Bool) (op : CbOp), op ≠ CbOp.setInitialized → applyCbOp b op = b) ∧
    (∀ pre post : List CbOp, initializedAfter pre = true →
      initializedAfter (pre ++ post) = true) := by
  refine ⟨rfl, ?_, ?_⟩
  · intro b op h
    cases op with
    | setInitialized => exact absurd rfl h
    | isInitialized => rfl
    | otherOp => rfl
  · intro pre post hpre
    have hstep : ∀ (ops : List CbOp), ops.foldl applyCbOp true = true := by
      intro ops
      induction ops with
      | nil => rfl
      | cons op rest ih => cases op <;> simpa [applyCbOp] using ih
    calc initializedAfter (pre ++ post)
        = (pre ++ post).foldl applyCbOp false := rfl
      _ = post.foldl applyCbOp (pre.foldl applyCbOp false) := by
            rw [List.foldl_append]
      _ = post.foldl applyCbOp true := by rw [show pre.foldl applyCbOp false = true from hpre]
      _ = true := hstep post

/-- Witness for C4 at a concrete key and requeue count. -/
theorem c4_handleErr_retry_policy_witness :
    handleErr false "ns/report-1" 7 =
      if 7 < 5 then [QueueOp.addRateLimited "ns/report-1"]
      else [QueueOp.forget "ns/report-1"] :=
  c4_handleErr_retry_policy "ns/report-1" 7

/-- Witness for C5 (amended) with Promsum enabled. -/
theorem c5_worker_census_witness :
    (startWorkers ⟨0⟩ false).2.countP
      (fun f => match f with | WorkerFiber.reportWorker _ => true | _ => false) = 2 :=
  (c5_worker_census false).1

/-- Witness for C10 at the exact broken-pipe shape. -/
theorem c10_isErrBrokenPipe_shape_witness :
    isErrBrokenPipe (.opError .epipe) = true :=
  (c10_isErrBrokenPipe_shape.1 (.opError .epipe)).mpr rfl

/-- Witness for C9: concrete sequences exercising both clauses. -/
theorem c9_initialized_monotone_witness :
    applyCbOp true CbOp.otherOp = true ∧
    initializedAfter ([CbOp.otherOp, CbOp.setInitialized] ++
      [CbOp.otherOp, CbOp.isInitialized]) = true :=
  ⟨c9_initialized_monotone.2.1 true CbOp.otherOp (by decide),
   c9_initialized_monotone.2.2 [CbOp.otherOp, CbOp.setInitialized]
     [CbOp.otherOp, CbOp.isInitialized] (by decide)⟩

end Chargeback
